import Mathlib

/-
Verification of the nanopb_json codec (src/src/pbjson_encode.c,
src/src/pbjson_decode.c, src/include/pb/json.h).

The C code is shallowly embedded: the message memory image is a flat list of
bytes (Nat values), descriptors mirror struct pbjson_iter_s / pbjson_msgdesc_s,
pointers become offsets into the image, NUL-terminated C strings become
List Char (the terminator is the end of the list), and fallible functions
return Option.  Machine-integer stores go through explicit little-endian
byte serialisation with reduction modulo 2^width.  The mutually recursive
parse/emit routines carry an explicit fuel parameter for termination; the
fuel is chosen large enough that no concrete evaluation below exhausts it.
Binary floating point (the FLOAT/DOUBLE branches, which in C go through
strtof/strtod and printf \x22%f\x22) is not modelled: those branches are mapped to
the error outcome and no theorem below exercises them.
-/

/-- Repetition kind, mirroring enum pbjson_option_enum in pb/json.h. -/
inductive pbjson_option_t where
  | SINGULAR
  | REPEATED
  | OPTIONAL
deriving DecidableEq

/-- Semantic type, mirroring enum pbjson_type_enum in pb/json.h (the SINT32,
SFIXED32, ... aliases collapse onto the canonical constructors exactly as the
C enum collapses them onto equal values). -/
inductive pbjson_type_t where
  | BOOL
  | ENUM
  | UENUM
  | FLOAT
  | DOUBLE
  | INT32
  | INT64
  | UINT32
  | UINT64
  | STRING
  | MESSAGE
deriving DecidableEq

mutual
/-- Field descriptor, mirroring struct pbjson_iter_s: name, submessage
descriptor pointer (None = NULL), item_size, data_offset, count_offset,
option, data_type. -/
inductive pbjson_iter_t where
  | mk (name : List Char) (submsg : Option pbjson_msgdesc_t) (item_size : Nat)
       (data_offset : Nat) (count_offset : Nat) (option : pbjson_option_t)
       (data_type : pbjson_type_t)

/-- Message descriptor, mirroring struct pbjson_msgdesc_s; num_field is the
length of the field list. -/
inductive pbjson_msgdesc_t where
  | mk (iter : List pbjson_iter_t)
end

def pbjson_iter_t.name : pbjson_iter_t → List Char
  | .mk n _ _ _ _ _ _ => n

def pbjson_iter_t.submsg : pbjson_iter_t → Option pbjson_msgdesc_t
  | .mk _ s _ _ _ _ _ => s

def pbjson_iter_t.item_size : pbjson_iter_t → Nat
  | .mk _ _ i _ _ _ _ => i

def pbjson_iter_t.data_offset : pbjson_iter_t → Nat
  | .mk _ _ _ d _ _ _ => d

def pbjson_iter_t.count_offset : pbjson_iter_t → Nat
  | .mk _ _ _ _ c _ _ => c

def pbjson_iter_t.option : pbjson_iter_t → pbjson_option_t
  | .mk _ _ _ _ _ o _ => o

def pbjson_iter_t.data_type : pbjson_iter_t → pbjson_type_t
  | .mk _ _ _ _ _ _ t => t

def pbjson_msgdesc_t.iter : pbjson_msgdesc_t → List pbjson_iter_t
  | .mk l => l

/-- The message memory image: a flat byte region addressed by offsets. -/
abbrev mem_t := List Nat

/-- Store one byte at an offset (writes outside the image, which would be
undefined behaviour in C, are dropped). -/
def mem_store (m : mem_t) (off b : Nat) : mem_t := m.set off b

/-- Load one byte from an offset. -/
def mem_load (m : mem_t) (off : Nat) : Nat := m.getD off 0

/-- Store the low `width` bytes of `v` little-endian at `off`, modelling
a machine-integer store of that width. -/
def mem_store_le (m : mem_t) (off v : Nat) : Nat → mem_t
  | 0 => m
  | w + 1 => mem_store_le (m.set off (v % 256)) (off + 1) (v / 256) w

/-- Load a `width`-byte little-endian unsigned value from `off`. -/
def mem_load_le (m : mem_t) (off : Nat) : Nat → Nat
  | 0 => 0
  | w + 1 => mem_load m off + 256 * mem_load_le m (off + 1) w

/-- Reinterpret a `width`-byte unsigned value as signed two's complement. -/
def int_of_width (n : Nat) (width : Nat) : Int :=
  if n < 2 ^ (8 * width - 1) then (n : Int) else (n : Int) - 2 ^ (8 * width)

/-- Read the NUL-terminated C string stored in the image at `off` (strlen
semantics; scanning stops at the end of the image, which a well-formed image
always reaches only after a 0 byte). -/
def mem_load_cstring_aux : List Nat → List Char
  | [] => []
  | 0 :: _ => []
  | b :: bs => Char.ofNat b :: mem_load_cstring_aux bs

def mem_load_cstring (m : mem_t) (off : Nat) : List Char :=
  mem_load_cstring_aux (m.drop off)

/-- Decimal digits of a natural number, as printf %u renders it. -/
def nat_dec_aux : Nat → Nat → List Char
  | 0, _ => []
  | fuel + 1, n =>
    if n < 10 then [Char.ofNat (48 + n)]
    else nat_dec_aux fuel (n / 10) ++ [Char.ofNat (48 + n % 10)]

def nat_dec (n : Nat) : List Char := nat_dec_aux (n + 1) n

/-- Decimal rendering of a signed integer, as printf %d renders it. -/
def int_dec (v : Int) : List Char :=
  if v < 0 then '-' :: nat_dec v.natAbs else nat_dec v.natAbs

/-- pbjson_find_first_char: skip the whitespace characters space, linefeed and
horizontal tab; error (none) only when the skip runs into the terminating NUL.
A string that starts at the terminator is returned as is (the C loop body is
never entered). -/
def pbjson_find_first_char : List Char → Option (List Char)
  | [] => some []
  | c :: rest =>
    if c = ' ' ∨ c = '\n' ∨ c = '\t' then
      match rest with
      | [] => none
      | _ :: _ => pbjson_find_first_char rest
    else
      some (c :: rest)

/-- pbjson_jumpto_first_char: skip whitespace, then require and consume the
character `c` (which at every call site is one of the non-NUL structural
characters, so the comparison against the terminator never succeeds). -/
def pbjson_jumpto_first_char (s : List Char) (c : Char) : Option (List Char) :=
  match pbjson_find_first_char s with
  | none => none
  | some [] => none
  | some (d :: rest) => if d = c then some rest else none

/-- Loop of pbjson_check_brace.  The stack models buff_brace above its sentinel
slot: its length is the C cursor buff_brace_cur_i, and a push failing the
`cur_i >= 64` capacity test or a close finding the wrong (or sentinel) top
yields false.  The quote flag mirrors is_string_open; it is ignored at the
end of input exactly as in C. -/
def pbjson_check_brace_loop : List Char → List Char → Bool → Bool
  | [], stack, _ => stack.isEmpty
  | c :: rest, stack, true => pbjson_check_brace_loop rest stack (c != '"')
  | c :: rest, stack, false =>
    if c = '\x7b' then
      if stack.length + 1 ≥ 64 then false
      else pbjson_check_brace_loop rest ('\x7b' :: stack) false
    else if c = '\x7d' then
      match stack with
      | '\x7b' :: stk => pbjson_check_brace_loop rest stk false
      | _ => false
    else if c = '[' then
      if stack.length + 1 ≥ 64 then false
      else pbjson_check_brace_loop rest ('[' :: stack) false
    else if c = ']' then
      match stack with
      | '[' :: stk => pbjson_check_brace_loop rest stk false
      | _ => false
    else if c = '"' then pbjson_check_brace_loop rest stack true
    else pbjson_check_brace_loop rest stack false

/-- pbjson_check_brace: the whole-input pre-pass balance check. -/
def pbjson_check_brace (s : List Char) : Bool :=
  pbjson_check_brace_loop s [] false

/-- Result of pbjson_check_obj_empty: -1, 1 (with the position moved past the
closing character) or 0 (with the position left untouched, which the C code
achieves by scanning on a local copy of the cursor). -/
inductive obj_empty_result where
  | error
  | empty (rest : List Char)
  | nonempty
deriving DecidableEq

/-- pbjson_check_obj_empty: scan over spaces only; hitting `close` means the
object/array is empty, any other character means it is not. -/
def pbjson_check_obj_empty (close : Char) : List Char → obj_empty_result
  | [] => .error
  | c :: rest =>
    if c = close then .empty rest
    else if c = ' ' then pbjson_check_obj_empty close rest
    else .nonempty

/-- Loop of pbjson_discard_value.  Note two faithful details: a comma while
n_brace_open is nonzero is an error (the C `else return -1`), and when is_end
is set the terminating character itself is consumed (the C `parser->s++` at
the bottom of the loop runs on that final iteration too). -/
def pbjson_discard_value_loop : List Char → Nat → Bool → Option (List Char)
  | [], _, _ => none
  | c :: rest, n, true => pbjson_discard_value_loop rest n (c != '"')
  | c :: rest, n, false =>
    if c = '\x7b' ∨ c = '[' then pbjson_discard_value_loop rest (n + 1) false
    else if c = '\x7d' ∨ c = ']' then
      if n = 0 then some rest
      else pbjson_discard_value_loop rest (n - 1) false
    else if c = '"' then pbjson_discard_value_loop rest n true
    else if c = ',' then
      if n = 0 then some rest else none
    else pbjson_discard_value_loop rest n false

/-- pbjson_discard_value: skip the value of a key that matched no descriptor
field. -/
def pbjson_discard_value (s : List Char) : Option (List Char) :=
  pbjson_discard_value_loop s 0 false

/-- pbjson_check_key: compare the expected field name against the input at a
key position (just after the opening quote); on success the cursor moves past
the closing quote, on mismatch the caller's cursor is unchanged (the C code
works on a local copy). -/
def pbjson_check_key : List Char → List Char → Option (List Char)
  | [], '"' :: srest => some srest
  | [], _ => none
  | _ :: _, [] => none
  | k :: ks, c :: srest => if k = c then pbjson_check_key ks srest else none

/-- Characters accepted by the C isspace used by strtol and friends. -/
def c_isspace (c : Char) : Bool :=
  c = ' ' || c = '\t' || c = '\n' || c = '\x0b' || c = '\x0c' || c = '\r'

def skip_c_isspace : List Char → List Char
  | [] => []
  | c :: rest => if c_isspace c then skip_c_isspace rest else c :: rest

def take_digits : List Char → (List Char × List Char)
  | [] => ([], [])
  | c :: rest =>
    if c.isDigit then
      let p := take_digits rest
      (c :: p.1, p.2)
    else ([], c :: rest)

def digits_val (ds : List Char) : Nat :=
  ds.foldl (fun a c => a * 10 + (c.toNat - 48)) 0

/-- Model of C strtol/strtoll (base 10): skip isspace, optional sign, then
decimal digits; none when no digit is converted (endptr = nptr), otherwise
the value clamped to [lo, hi] and the rest of the input. -/
def c_strtol (s : List Char) (lo hi : Int) : Option (Int × List Char) :=
  let t := skip_c_isspace s
  let p : Bool × List Char :=
    match t with
    | '-' :: r => (true, r)
    | '+' :: r => (false, r)
    | r => (false, r)
  let d := take_digits p.2
  match d.1 with
  | [] => none
  | _ :: _ =>
    let v : Int := if p.1 then -(digits_val d.1 : Int) else (digits_val d.1 : Int)
    some (max lo (min hi v), d.2)

/-- Model of C strtoul/strtoull (base 10) with modulus `md` = 2^64: magnitude
clamped to md - 1, then negated modulo md when a minus sign was present. -/
def c_strtoul (s : List Char) (md : Nat) : Option (Nat × List Char) :=
  let t := skip_c_isspace s
  let p : Bool × List Char :=
    match t with
    | '-' :: r => (true, r)
    | '+' :: r => (false, r)
    | r => (false, r)
  let d := take_digits p.2
  match d.1 with
  | [] => none
  | _ :: _ =>
    let dd := min (digits_val d.1) (md - 1)
    some ((if p.1 then (md - dd % md) % md else dd), d.2)

/-- Loop of pbjson_get_string: copy up to item_size raw bytes.  Hitting the
closing quote consumes it, NUL-terminates the destination and succeeds;
hitting end of input writes the terminator and fails; exhausting item_size
succeeds WITHOUT consuming the rest of the literal or its closing quote -/
def pbjson_get_string_loop : Nat → List Char → mem_t → Nat → Option (List Char × mem_t)
  | 0, s, m, _ => some (s, m)
  | _ + 1, [], _, _ => none
  | i + 1, c :: rest, m, dst =>
    if c = '"' then some (rest, mem_store m dst 0)
    else pbjson_get_string_loop i rest (mem_store m dst c.toNat) (dst + 1)

/-- pbjson_get_string: require the opening quote, then raw byte copy capped at
item_size. -/
def pbjson_get_string (item_size : Nat) (s : List Char) (m : mem_t) (dst : Nat) :
    Option (List Char × mem_t) :=
  match s with
  | '"' :: rest => pbjson_get_string_loop item_size rest m dst
  | _ => none

/-- pbjson_get_bool: strncmp against the literals true and false. -/
def pbjson_get_bool (s : List Char) (m : mem_t) (dst : Nat) :
    Option (List Char × mem_t) :=
  if s.take 4 = ('t' :: 'r' :: 'u' :: 'e' :: []) then
    some (s.drop 4, mem_store m dst 1)
  else if s.take 5 = ('f' :: 'a' :: 'l' :: 's' :: 'e' :: []) then
    some (s.drop 5, mem_store m dst 0)
  else none

/-- pbjson_get_number: width dispatch over the strtol family, storing the
converted value at dst with the C assignment conversions (wrap modulo the
destination width).  The FLOAT/DOUBLE branches (strtof/strtod) are not
modelled and map to the error outcome; the default branch is the C
`end_ptr = s` error. -/
def pbjson_get_number (ty : pbjson_type_t) (s : List Char) (m : mem_t) (dst : Nat) :
    Option (List Char × mem_t) :=
  match ty with
  | .INT32 =>
    match c_strtol s (-(2 ^ 63)) (2 ^ 63 - 1) with
    | none => none
    | some (v, r) => some (r, mem_store_le m dst (v.emod (2 ^ 32)).toNat 4)
  | .INT64 =>
    match c_strtol s (-(2 ^ 63)) (2 ^ 63 - 1) with
    | none => none
    | some (v, r) => some (r, mem_store_le m dst (v.emod (2 ^ 64)).toNat 8)
  | .UINT32 =>
    match c_strtoul s (2 ^ 64) with
    | none => none
    | some (v, r) => some (r, mem_store_le m dst (v % 2 ^ 32) 4)
  | .UINT64 =>
    match c_strtoul s (2 ^ 64) with
    | none => none
    | some (v, r) => some (r, mem_store_le m dst v 8)
  | _ => none

/-- pbjson_get_enum: parse as int32, then narrow to the descriptor's item
size (1, 2 or 4 bytes); any other size is an error. -/
def pbjson_get_enum (item_size : Nat) (s : List Char) (m : mem_t) (dst : Nat) :
    Option (List Char × mem_t) :=
  match c_strtol s (-(2 ^ 63)) (2 ^ 63 - 1) with
  | none => none
  | some (v, r) =>
    let n32 := (v.emod (2 ^ 32)).toNat
    match item_size with
    | 1 => some (r, mem_store_le m dst (n32 % 2 ^ 8) 1)
    | 2 => some (r, mem_store_le m dst (n32 % 2 ^ 16) 2)
    | 4 => some (r, mem_store_le m dst n32 4)
    | _ => none

/-- pbjson_get_uenum: parse as uint32, then narrow to the descriptor's item
size (1, 2 or 4 bytes); any other size is an error. -/
def pbjson_get_uenum (item_size : Nat) (s : List Char) (m : mem_t) (dst : Nat) :
    Option (List Char × mem_t) :=
  match c_strtoul s (2 ^ 64) with
  | none => none
  | some (v, r) =>
    let n32 := v % 2 ^ 32
    match item_size with
    | 1 => some (r, mem_store_le m dst (n32 % 2 ^ 8) 1)
    | 2 => some (r, mem_store_le m dst (n32 % 2 ^ 16) 2)
    | 4 => some (r, mem_store_le m dst n32 4)
    | _ => none

/-- pbjson_decode_value: skip whitespace, then dispatch on the field's
semantic type (the MESSAGE case is the C switch default, an error, because
callers handle submessages before calling this). -/
def pbjson_decode_value (key : pbjson_iter_t) (s : List Char) (m : mem_t) (dst : Nat) :
    Option (List Char × mem_t) :=
  match pbjson_find_first_char s with
  | none => none
  | some s1 =>
    match key.data_type with
    | .STRING => pbjson_get_string key.item_size s1 m dst
    | .BOOL => pbjson_get_bool s1 m dst
    | .FLOAT => pbjson_get_number .FLOAT s1 m dst
    | .DOUBLE => pbjson_get_number .DOUBLE s1 m dst
    | .INT32 => pbjson_get_number .INT32 s1 m dst
    | .INT64 => pbjson_get_number .INT64 s1 m dst
    | .UINT32 => pbjson_get_number .UINT32 s1 m dst
    | .UINT64 => pbjson_get_number .UINT64 s1 m dst
    | .ENUM => pbjson_get_enum key.item_size s1 m dst
    | .UENUM => pbjson_get_uenum key.item_size s1 m dst
    | .MESSAGE => none

/-- The linear first-match search of pbjson_decode_key over the field list;
each pbjson_check_key failure leaves the cursor untouched. -/
def pbjson_match_key : List pbjson_iter_t → List Char → Option (pbjson_iter_t × List Char)
  | [], _ => none
  | k :: ks, s =>
    match pbjson_check_key k.name s with
    | some rest => some (k, rest)
    | none => pbjson_match_key ks s

/-- The unmatched-key scan of pbjson_decode_key: advance to the closing quote
of the key and consume it, failing at end of input. -/
def pbjson_skip_to_quote : List Char → Option (List Char)
  | [] => none
  | c :: rest => if c = '"' then some rest else pbjson_skip_to_quote rest

mutual
/-- pbjson_decode_dict: require `\x7b`; an empty object clears the presence flag
when one was supplied and is an error otherwise; a non-empty object sets the
presence flag and parses comma-separated key/value pairs until `\x7d`.
`base` is the dst pointer and `p_has_msg` the presence-flag pointer (None =
NULL), both as offsets into the one flat image. -/
def pbjson_decode_dict : Nat → pbjson_msgdesc_t → Nat → Option Nat → List Char → mem_t →
    Option (List Char × mem_t)
  | 0, _, _, _, _, _ => none
  | fuel + 1, fields, base, p_has_msg, s, m =>
    match pbjson_jumpto_first_char s '\x7b' with
    | none => none
    | some s1 =>
      match pbjson_check_obj_empty '\x7d' s1 with
      | .error => none
      | .empty s2 =>
        match p_has_msg with
        | some off => some (s2, mem_store m off 0)
        | none => none
      | .nonempty =>
        let m1 := match p_has_msg with
          | some off => mem_store m off 1
          | none => m
        pbjson_decode_dict_loop fuel fields base s1 m1
termination_by structural fuel => fuel

/-- The key/value loop of pbjson_decode_dict. -/
def pbjson_decode_dict_loop : Nat → pbjson_msgdesc_t → Nat → List Char → mem_t →
    Option (List Char × mem_t)
  | 0, _, _, _, _ => none
  | fuel + 1, fields, base, s, m =>
    match pbjson_decode_key fuel fields base s m with
    | none => none
    | some (s1, m1) =>
      match pbjson_find_first_char s1 with
      | none => none
      | some ('\x7d' :: rest) => some (rest, m1)
      | some (',' :: rest) => pbjson_decode_dict_loop fuel fields base rest m1
      | some _ => none
termination_by structural fuel => fuel

/-- pbjson_decode_key: parse one quoted key, match it against the descriptor,
then after the colon either discard the value (no match) or dispatch by
repetition kind and type.  Note: for a MESSAGE field the presence-flag
pointer dst + count_offset is passed to the recursive call UNCONDITIONALLY,
not only for OPTIONAL fields (and the field-list generator puts
count_offset = 0 on SINGULAR fields). -/
def pbjson_decode_key : Nat → pbjson_msgdesc_t → Nat → List Char → mem_t →
    Option (List Char × mem_t)
  | 0, _, _, _, _ => none
  | fuel + 1, fields, base, s, m =>
    match pbjson_jumpto_first_char s '"' with
    | none => none
    | some s1 =>
      let found := pbjson_match_key fields.iter s1
      match (match found with
             | some (_, s2) => some s2
             | none => pbjson_skip_to_quote s1) with
      | none => none
      | some s2 =>
        match pbjson_jumpto_first_char s2 ':' with
        | none => none
        | some s3 =>
          match found with
          | none =>
            match pbjson_discard_value s3 with
            | none => none
            | some s4 => some (s4, m)
          | some (piter, _) =>
            if piter.option = .REPEATED then
              pbjson_decode_array fuel piter base s3 m
            else if piter.data_type = .MESSAGE then
              match piter.submsg with
              | some sub =>
                pbjson_decode_dict fuel sub (base + piter.data_offset)
                  (some (base + piter.count_offset)) s3 m
              | none => none
            else
              let m1 := if piter.option = .OPTIONAL then
                  mem_store m (base + piter.count_offset) 1
                else m
              pbjson_decode_value piter s3 m1 (base + piter.data_offset)
termination_by structural fuel => fuel

/-- pbjson_decode_array: require `[`; an explicit empty array stores count 0
without any element parse; otherwise parse comma-separated elements into
successive slots and store the final count at the auxiliary offset. -/
def pbjson_decode_array : Nat → pbjson_iter_t → Nat → List Char → mem_t →
    Option (List Char × mem_t)
  | 0, _, _, _, _ => none
  | fuel + 1, key, base, s, m =>
    match pbjson_jumpto_first_char s '[' with
    | none => none
    | some s1 =>
      match pbjson_check_obj_empty ']' s1 with
      | .error => none
      | .empty s2 => some (s2, mem_store_le m (base + key.count_offset) 0 4)
      | .nonempty =>
        match pbjson_decode_array_loop fuel key (base + key.data_offset) s1 m 0 with
        | none => none
        | some (cnt, s2, m1) => some (s2, mem_store_le m1 (base + key.count_offset) cnt 4)
termination_by structural fuel => fuel

/-- The element loop of pbjson_decode_array (count incremented after each
element, destination advanced by item_size after each comma). -/
def pbjson_decode_array_loop : Nat → pbjson_iter_t → Nat → List Char → mem_t → Nat →
    Option (Nat × List Char × mem_t)
  | 0, _, _, _, _, _ => none
  | fuel + 1, key, data, s, m, count =>
    match (if key.data_type = .MESSAGE then
             match key.submsg with
             | some sub => pbjson_decode_dict fuel sub data none s m
             | none => none
           else pbjson_decode_value key s m data) with
    | none => none
    | some (s1, m1) =>
      match pbjson_find_first_char s1 with
      | none => none
      | some (']' :: rest) => some (count + 1, rest, m1)
      | some (',' :: rest) => pbjson_decode_array_loop fuel key (data + key.item_size) rest m1 (count + 1)
      | some _ => none
termination_by structural fuel => fuel
end

/-- pbjson_decode: the decode entry point; run the brace/bracket pre-pass over
the whole input, then parse the top-level object with a NULL presence-flag
pointer.  Trailing text after the closing brace is ignored, as in C.  The
fuel is an artefact of the embedding, sized generously relative to the
input. -/
def pbjson_decode (s : List Char) (fields : pbjson_msgdesc_t) (m : mem_t) : Option mem_t :=
  if pbjson_check_brace s then
    match pbjson_decode_dict (s.length + 1) fields 0 none s m with
    | none => none
    | some (_, m1) => some m1
  else none

/-- The output stream of the encoder, mirroring struct pbjson_ostream_s.
`out` is the sequence of bytes placed at consecutive buffer positions;
`bytes_written` is the C cursor.  On the snprintf-truncation paths the C
cursor advances past what was physically written, the stream is then unusable
and every later emission fails, so only the error outcome of such runs is
meaningful (and only that is stated below). -/
structure pbjson_ostream_t where
  out : List Char
  max_size : Nat
  bytes_written : Nat
  is_wait_first_key : Bool

/-- pbjson_ostream_put_char: fails when the buffer is already full, and ALSO
reports failure when this very write makes it exactly full (the post-write
`bytes_written >= max_size` check). -/
def pbjson_ostream_put_char (st : pbjson_ostream_t) (c : Char) : Option pbjson_ostream_t :=
  if st.bytes_written ≥ st.max_size then none
  else
    let st2 : pbjson_ostream_t :=
      { st with out := st.out ++ [c], bytes_written := st.bytes_written + 1 }
    if st2.bytes_written ≥ st2.max_size then none else some st2

/-- The common snprintf step: at most rem - 1 characters are physically
written, but the reported (and cursor-advancing) length is the full rendered
length, exactly as snprintf returns it. -/
def pbjson_snprintf_out (st : pbjson_ostream_t) (r : List Char) : pbjson_ostream_t :=
  let rem := st.max_size - st.bytes_written
  { st with out := st.out ++ r.take (rem - 1), bytes_written := st.bytes_written + r.length }

/-- pbjson_ostream_put_key: emit a comma separator unless the stream is still
waiting for the first key, then snprintf the quoted name and colon.  The
rendered length is always positive, so the `len <= 0` check never fires. -/
def pbjson_ostream_put_key (st : pbjson_ostream_t) (name : List Char) :
    Option pbjson_ostream_t :=
  match (if st.is_wait_first_key then some st else pbjson_ostream_put_char st ',') with
  | none => none
  | some st1 =>
    if st1.bytes_written ≥ st1.max_size then none
    else some (pbjson_snprintf_out st1 ('"' :: (name ++ ('"' :: (':' :: [])))))

/-- pbjson_ostream_put_enum: read the value at the descriptor's width with the
C signedness conversions (width 4 reads unsigned then assigns to int, i.e.
two's-complement wrap; widths 2 and 1 sign-extend), render it with %d. -/
def pbjson_ostream_put_enum (st : pbjson_ostream_t) (item_size : Nat) (m : mem_t)
    (off : Nat) : Option pbjson_ostream_t :=
  match item_size with
  | 4 => some (pbjson_snprintf_out st (int_dec (int_of_width (mem_load_le m off 4) 4)))
  | 2 => some (pbjson_snprintf_out st (int_dec (int_of_width (mem_load_le m off 2) 2)))
  | 1 => some (pbjson_snprintf_out st (int_dec (int_of_width (mem_load_le m off 1) 1)))
  | _ => none

/-- pbjson_ostream_put_uenum: as put_enum but unsigned, rendered with %u. -/
def pbjson_ostream_put_uenum (st : pbjson_ostream_t) (item_size : Nat) (m : mem_t)
    (off : Nat) : Option pbjson_ostream_t :=
  match item_size with
  | 4 => some (pbjson_snprintf_out st (nat_dec (mem_load_le m off 4)))
  | 2 => some (pbjson_snprintf_out st (nat_dec (mem_load_le m off 2)))
  | 1 => some (pbjson_snprintf_out st (nat_dec (mem_load_le m off 1)))
  | _ => none

/-- pbjson_struct_has_key: an OPTIONAL field is emitted only when its presence
flag at count_offset is nonzero; every other field is always emitted. -/
def pbjson_struct_has_key (key : pbjson_iter_t) (base : Nat) (m : mem_t) : Bool :=
  if key.option = .OPTIONAL then mem_load m (base + key.count_offset) != 0 else true

/-- pbjson_encode_value: capacity pre-check, then render one scalar value.
STRING and BOOL check the exact needed room and fail without writing;
the numeric types go through snprintf.  FLOAT/DOUBLE (%f formatting of
binary floats) are not modelled and map to the error outcome; MESSAGE is the
C switch default, an error. -/
def pbjson_encode_value (st : pbjson_ostream_t) (key : pbjson_iter_t) (m : mem_t)
    (off : Nat) : Option pbjson_ostream_t :=
  if st.bytes_written ≥ st.max_size then none
  else
    match key.data_type with
    | .STRING =>
      let sval := mem_load_cstring m off
      let len := sval.length + 2
      if st.bytes_written + len ≥ st.max_size then none
      else some { st with out := st.out ++ ('"' :: (sval ++ ('"' :: []))),
                          bytes_written := st.bytes_written + len }
    | .BOOL =>
      let r : List Char := if mem_load m off ≠ 0 then ('t' :: 'r' :: 'u' :: 'e' :: [])
                           else ('f' :: 'a' :: 'l' :: 's' :: 'e' :: [])
      if st.bytes_written + r.length ≥ st.max_size then none
      else some { st with out := st.out ++ r, bytes_written := st.bytes_written + r.length }
    | .INT32 => some (pbjson_snprintf_out st (int_dec (int_of_width (mem_load_le m off 4) 4)))
    | .INT64 => some (pbjson_snprintf_out st (int_dec (int_of_width (mem_load_le m off 8) 8)))
    | .UINT32 => some (pbjson_snprintf_out st (nat_dec (mem_load_le m off 4)))
    | .UINT64 => some (pbjson_snprintf_out st (nat_dec (mem_load_le m off 8)))
    | .ENUM => pbjson_ostream_put_enum st key.item_size m off
    | .UENUM => pbjson_ostream_put_uenum st key.item_size m off
    | _ => none

mutual
/-- pbjson_encode_dict: emit `\x7b`, mark the stream as waiting for the first
key, emit every field in descriptor order, emit `\x7d`. -/
def pbjson_encode_dict : Nat → pbjson_ostream_t → pbjson_msgdesc_t → Nat → mem_t →
    Option pbjson_ostream_t
  | 0, _, _, _, _ => none
  | fuel + 1, st, fields, base, m =>
    match pbjson_ostream_put_char st '\x7b' with
    | none => none
    | some st1 =>
      match pbjson_encode_fields fuel { st1 with is_wait_first_key := true }
              fields.iter base m with
      | none => none
      | some st2 => pbjson_ostream_put_char st2 '\x7d'
termination_by structural fuel => fuel

/-- The field loop of pbjson_encode_dict.  Faithful detail: is_wait_first_key
is cleared after EVERY descriptor entry, including entries that emitted
nothing because an optional field was absent. -/
def pbjson_encode_fields : Nat → pbjson_ostream_t → List pbjson_iter_t → Nat → mem_t →
    Option pbjson_ostream_t
  | 0, _, _, _, _ => none
  | _ + 1, st, [], _, _ => some st
  | fuel + 1, st, k :: ks, base, m =>
    match pbjson_encode_key fuel st k base m with
    | none => none
    | some st1 => pbjson_encode_fields fuel { st1 with is_wait_first_key := false } ks base m
termination_by structural fuel => fuel

/-- pbjson_encode_key: skip an absent optional field entirely (leaving the
stream untouched); otherwise emit the key and dispatch: repeated fields read
their element count from the auxiliary slot, submessages recurse, scalars go
through pbjson_encode_value. -/
def pbjson_encode_key : Nat → pbjson_ostream_t → pbjson_iter_t → Nat → mem_t →
    Option pbjson_ostream_t
  | 0, _, _, _, _ => none
  | fuel + 1, st, key, base, m =>
    if pbjson_struct_has_key key base m then
      match pbjson_ostream_put_key st key.name with
      | none => none
      | some st1 =>
        if key.option = .REPEATED then
          pbjson_encode_array fuel st1 key (base + key.data_offset)
            (mem_load_le m (base + key.count_offset) 4) m
        else if key.data_type = .MESSAGE then
          match key.submsg with
          | some sub => pbjson_encode_dict fuel st1 sub (base + key.data_offset) m
          | none => none
        else
          pbjson_encode_value st1 key m (base + key.data_offset)
    else some st
termination_by structural fuel => fuel

/-- pbjson_encode_array: emit `[`, the `count` elements comma-separated
(submessage elements recurse into the submessage descriptor), then `]`. -/
def pbjson_encode_array : Nat → pbjson_ostream_t → pbjson_iter_t → Nat → Nat → mem_t →
    Option pbjson_ostream_t
  | 0, _, _, _, _, _ => none
  | fuel + 1, st, key, off, count, m =>
    match pbjson_ostream_put_char st '[' with
    | none => none
    | some st1 =>
      match pbjson_encode_array_elems fuel st1 key off count m with
      | none => none
      | some st2 => pbjson_ostream_put_char st2 ']'
termination_by structural fuel => fuel

/-- The element loop of pbjson_encode_array: a comma after every element but
the last. -/
def pbjson_encode_array_elems : Nat → pbjson_ostream_t → pbjson_iter_t → Nat → Nat → mem_t →
    Option pbjson_ostream_t
  | 0, _, _, _, _, _ => none
  | _ + 1, st, _, _, 0, _ => some st
  | fuel + 1, st, key, off, remaining + 1, m =>
    match (if key.data_type = .MESSAGE then
             match key.submsg with
             | some sub => pbjson_encode_dict fuel st sub off m
             | none => none
           else pbjson_encode_value st key m off) with
    | none => none
    | some st1 =>
      if remaining = 0 then some st1
      else
        match pbjson_ostream_put_char st1 ',' with
        | none => none
        | some st2 => pbjson_encode_array_elems fuel st2 key (off + key.item_size) remaining m
termination_by structural fuel => fuel
end

/-- pbjson_encode: the encode entry point.  A buffer shorter than 3 fails
immediately; otherwise max_size is the capacity minus one (reserving the
terminator slot), the top-level object is emitted and the terminating NUL is
written at the final cursor position.  On success the result is the byte
count (excluding the terminator) and the buffer contents including it. -/
def pbjson_encode (fuel len : Nat) (fields : pbjson_msgdesc_t) (m : mem_t) :
    Option (Nat × List Char) :=
  if len < 3 then none
  else
    match pbjson_encode_dict fuel
            { out := [], max_size := len - 1, bytes_written := 0, is_wait_first_key := true }
            fields 0 m with
    | none => none
    | some st => some (st.bytes_written, st.out ++ ('\x00' :: []))

/-- A descriptor with no fields. -/
def desc_empty : pbjson_msgdesc_t := .mk []

/-- Descriptor with the single singular bool field `known` at offset 0
(image: 1 byte). -/
def field_known : pbjson_iter_t :=
  .mk ('k' :: 'n' :: 'o' :: 'w' :: 'n' :: []) none 1 0 0 .SINGULAR .BOOL

def desc_known : pbjson_msgdesc_t := .mk (field_known :: [])

/-- Optional int32 `a` (value at 0, presence flag at 4) followed by singular
int32 `b` at 5; image: 9 bytes.  SINGULAR fields carry count_offset 0, as
emitted by PBJSON_GEN_OPTION_SINGULAR. -/
def field_a_opt : pbjson_iter_t := .mk ('a' :: []) none 4 0 4 .OPTIONAL .INT32

def field_b : pbjson_iter_t := .mk ('b' :: []) none 4 5 0 .SINGULAR .INT32

def desc_ab : pbjson_msgdesc_t := .mk (field_a_opt :: field_b :: [])

/-- The same two fields with `b` first, for contrast. -/
def desc_ba : pbjson_msgdesc_t := .mk (field_b :: field_a_opt :: [])

/-- The image of the message over desc_ab with the optional `a` absent and
b = 5. -/
def img_ab : mem_t := 0 :: 0 :: 0 :: 0 :: 0 :: 5 :: 0 :: 0 :: 0 :: []

/-- Repeated int32 field `array`: up to 8 elements at offset 0, element count
at offset 32; image: 36 bytes (mirrors SubMessage1 of the test suite). -/
def field_array : pbjson_iter_t :=
  .mk ('a' :: 'r' :: 'r' :: 'a' :: 'y' :: []) none 4 0 32 .REPEATED .INT32

def desc_array : pbjson_msgdesc_t := .mk (field_array :: [])

/-- The image over desc_array holding [12, 14] with count 2. -/
def img_array_12_14 : mem_t :=
  (12 :: 0 :: 0 :: 0 :: 14 :: 0 :: 0 :: 0 :: []) ++ List.replicate 24 0 ++
    (2 :: 0 :: 0 :: 0 :: [])

/-- Inner message type: one singular one-byte unsigned enum `y` at offset 0. -/
def field_y : pbjson_iter_t := .mk ('y' :: []) none 1 0 0 .SINGULAR .UENUM

def desc_inner : pbjson_msgdesc_t := .mk (field_y :: [])

/-- Optional submessage `m` of type desc_inner: presence flag at 0, value slot
at 1; image: 2 bytes. -/
def field_m_opt : pbjson_iter_t :=
  .mk ('m' :: []) (some desc_inner) 1 1 0 .OPTIONAL .MESSAGE

def desc_m_opt : pbjson_msgdesc_t := .mk (field_m_opt :: [])

/-- Parent with a singular one-byte field `q` at offset 0 and a SINGULAR
submessage `m` of type desc_inner at offset 1 (count_offset 0, the value
PBJSON_GEN_OPTION_SINGULAR emits); image: 3 bytes, byte 2 unused padding. -/
def field_q : pbjson_iter_t := .mk ('q' :: []) none 1 0 0 .SINGULAR .UENUM

def field_m_sing : pbjson_iter_t :=
  .mk ('m' :: []) (some desc_inner) 1 1 0 .SINGULAR .MESSAGE

def desc_parent : pbjson_msgdesc_t := .mk (field_q :: field_m_sing :: [])

/-- Singular string field `x` with capacity (item_size) 3 at offset 0;
image: 4 bytes, byte 3 unused padding. -/
def field_x_str : pbjson_iter_t := .mk ('x' :: []) none 3 0 0 .SINGULAR .STRING

def desc_str : pbjson_msgdesc_t := .mk (field_x_str :: [])

/-- Claim C1 (code bug).  The claimed round-trip decode(encode(m)) = m fails
on the explicitly covered optional-absent case: over desc_ab (optional `a`
absent, singular b = 5) the encoder emits a leading comma right after the
opening brace — because pbjson_encode_dict clears is_wait_first_key even for
the skipped field — and the resulting text is rejected by the project's own
decoder, so decode(encode(img_ab)) is an error, not img_ab. -/
theorem C1_round_trip_broken :
    pbjson_encode 100 64 desc_ab img_ab
      = some (8, ("\x7b,\"b\":5\x7d").toList ++ ('\x00' :: []))
    ∧ pbjson_decode (("\x7b,\"b\":5\x7d").toList) desc_ab (List.replicate 9 0) = none := by
  exact ⟨by decide, by decide⟩

/-- Claim C2 (code bug).  Decoding the claimed input against desc_known fails
instead of succeeding: pbjson_discard_value returns an error on any comma
nested inside braces/brackets (first conjuncts), and even for a comma-free
unknown value it consumes the terminating separator so the enclosing object
parse desynchronizes (last two conjuncts: the whole decode of a simple
unknown key fails, and the discard of the value `1` eats the following
comma). -/
theorem C2_unknown_key_decode_fails :
    pbjson_decode (("\x7b\"unknownField\": \x7b\"a\":[1,2,\x7b\"b\":3\x7d]\x7d, \"known\":true\x7d").toList)
        desc_known (0 :: []) = none
    ∧ pbjson_discard_value ((" \x7b\"a\":[1,2,\x7b\"b\":3\x7d]\x7d, \"known\":true\x7d").toList) = none
    ∧ pbjson_decode (("\x7b\"u\":1,\"known\":true\x7d").toList) desc_known (0 :: []) = none
    ∧ pbjson_discard_value (("1,\"known\":true\x7d").toList)
        = some (("\"known\":true\x7d").toList) := by
  exact ⟨by decide, by decide, by decide, by decide⟩

/-- Claim C3, counterexample.  Encoding with buffer capacity exactly 3 and a
zero-field descriptor FAILS (the final closing-brace write makes the stream
exactly full and pbjson_ostream_put_char reports that as an error), contrary
to the claimed success. -/
theorem C3_capacity3_empty_rejected : pbjson_encode 9 3 desc_empty [] = none := by
  decide

/-- Claim C3 as amended.  Any capacity below 3 fails immediately for every
fuel, descriptor and image; capacity 3 fails even for a zero-field
descriptor (see the counterexample); the minimal successful capacity for the
empty object is 4, which yields the two characters of the empty object
followed by the NUL terminator and byte count 2. -/
theorem C3_capacity :
    (∀ (len fuel : Nat) (fields : pbjson_msgdesc_t) (m : mem_t),
        len < 3 → pbjson_encode fuel len fields m = none)
    ∧ pbjson_encode 9 4 desc_empty [] = some (2, ('\x7b' :: '\x7d' :: '\x00' :: [])) := by
  constructor
  · intro len fuel fields m h
    unfold pbjson_encode
    rw [if_pos h]
  · decide

/-- Claim C3, witness for the hypothesis of the amended theorem: instantiated
at capacity 2. -/
theorem C3_capacity_witness : pbjson_encode 7 2 desc_empty [] = none :=
  C3_capacity.1 2 7 desc_empty [] (by decide)

/-- Claim C4 (code bug).  With the optional field first in the descriptor and
absent, the encoder emits a comma immediately after the opening brace: the
separator is suppressed only before the first DESCRIPTOR entry, not before
the first emitted key (pbjson_encode_fields clears is_wait_first_key even
after a field that emitted nothing).  With the same fields in the reverse
order the output is well-formed, isolating the slip. -/
theorem C4_comma_after_skipped_first_field :
    pbjson_encode 100 64 desc_ab img_ab
      = some (8, ('\x7b' :: ',' :: (("\"b\":5\x7d").toList ++ ('\x00' :: []))))
    ∧ pbjson_encode 100 64 desc_ba img_ab
      = some (7, ('\x7b' :: (("\"b\":5\x7d").toList ++ ('\x00' :: [])))) := by
  exact ⟨by decide, by decide⟩

/-- Claim C5, counterexample.  An optional-submessage value whose braces
enclose a linefeed is NOT treated as an empty object (pbjson_check_obj_empty
skips only spaces), and the subsequent key parse fails, so the claim's
"possibly with interior whitespace" does not hold beyond spaces. -/
theorem C5_newline_interior_ws_fails :
    pbjson_decode ('\x7b' :: '"' :: 'm' :: '"' :: ':' :: '\x7b' :: '\n' :: '\x7d' :: '\x7d' :: [])
      desc_m_opt (7 :: 9 :: []) = none := by
  decide

/-- Claim C5 as amended (interior whitespace restricted to spaces).  Decoding
an empty object — bare or with interior spaces — as the value of the
optional submessage field `m` succeeds and stores 0 in the presence flag at
offset 0 (initially 7), leaving the value slot untouched; decoding the empty
object as the top-level target, where the presence-flag pointer is NULL,
fails. -/
theorem C5_empty_object_semantics :
    pbjson_decode (("\x7b\"m\":\x7b\x7d\x7d").toList) desc_m_opt (7 :: 9 :: [])
      = some (0 :: 9 :: [])
    ∧ pbjson_decode (("\x7b\"m\":\x7b  \x7d\x7d").toList) desc_m_opt (7 :: 9 :: [])
        = some (0 :: 9 :: [])
    ∧ pbjson_decode ('\x7b' :: '\x7d' :: []) desc_m_opt (7 :: 9 :: []) = none := by
  exact ⟨by decide, by decide, by decide⟩

/-- Claim C6 (code bug).  Decoding a SINGULAR nested-message field does NOT
write only within that field's data slot: pbjson_decode_key passes
dst + count_offset as the presence-flag destination unconditionally, and
count_offset is 0 for singular fields, so the presence write lands on byte 0
of the parent image — the slot of the sibling field `q`, whose initial value
7 is overwritten with 1.  The submessage value 5 lands in the field's slot
at offset 1 and the unrelated byte 2 is unchanged. -/
theorem C6_singular_submsg_clobbers_parent :
    pbjson_decode (("\x7b\"m\":\x7b\"y\":5\x7d\x7d").toList) desc_parent (7 :: 9 :: 4 :: [])
      = some (1 :: 5 :: 4 :: []) := by
  decide

/-- Claim C7 (code bug).  An over-long string literal is truncated by
pbjson_get_string, which itself reports success — but it leaves the
unconsumed remainder of the literal in the input (first conjunct: capacity 3,
literal abcd, bytes 97 98 99 stored, cursor left on the letter d), so the
enclosing object parse then fails on that leftover and the whole decode IS
an error (second conjunct), while a literal that fits decodes fine (third
conjunct). -/
theorem C7_overlong_string_truncation :
    pbjson_get_string 3 ('"' :: 'a' :: 'b' :: 'c' :: 'd' :: '"' :: '\x7d' :: [])
        (0 :: 0 :: 0 :: 9 :: []) 0
      = some (('d' :: '"' :: '\x7d' :: []), (97 :: 98 :: 99 :: 9 :: []))
    ∧ pbjson_decode (("\x7b\"x\":\"abcd\"\x7d").toList) desc_str (0 :: 0 :: 0 :: 9 :: []) = none
    ∧ pbjson_decode (("\x7b\"x\":\"ab\"\x7d").toList) desc_str (0 :: 0 :: 0 :: 9 :: [])
        = some (97 :: 98 :: 0 :: 9 :: []) := by
  exact ⟨by decide, by decide, by decide⟩

/-- Claim C8 (confirmed).  The repeated int32 field holding [12, 14] with
count 2 encodes to the claimed text; decoding that text into a zeroed image
reproduces exactly the original image (count 2 and both values); an explicit
empty array decodes to count 0 (here overwriting a stale count of 7) with no
element slot touched. -/
theorem C8_array_round_trip :
    pbjson_encode 100 64 desc_array img_array_12_14
      = some (17, ("\x7b\"array\":[12,14]\x7d").toList ++ ('\x00' :: []))
    ∧ pbjson_decode (("\x7b\"array\":[12,14]\x7d").toList) desc_array (List.replicate 36 0)
        = some img_array_12_14
    ∧ pbjson_decode (("\x7b\"array\":[]\x7d").toList) desc_array
        (List.replicate 32 0 ++ (7 :: 0 :: 0 :: 0 :: []))
        = some (List.replicate 36 0) := by
  exact ⟨by decide, by decide, by decide⟩

/-- Claim C9 (confirmed).  Both malformed inputs and the empty string fail
decode for EVERY descriptor and image (the first two are caught by the
pre-pass pbjson_check_brace, which pbjson_decode runs over the whole input
before any structural parsing, as the last two conjuncts witness; the empty
string passes the balance check but fails at the opening brace). -/
theorem C9_malformed_rejection :
    ∀ (fields : pbjson_msgdesc_t) (m : mem_t),
      pbjson_decode (("\x7b\"x\": \x7b\x7d").toList) fields m = none
      ∧ pbjson_decode (("\x7b\"x\": [1,2,\x7d").toList) fields m = none
      ∧ pbjson_decode [] fields m = none
      ∧ pbjson_check_brace (("\x7b\"x\": \x7b\x7d").toList) = false
      ∧ pbjson_check_brace (("\x7b\"x\": [1,2,\x7d").toList) = false := by
  intro fields m
  exact ⟨rfl, rfl, rfl, by decide, by decide⟩

/-- Claim C10 (confirmed).  The token-level whitespace skip leaves a carriage
return in place (first conjunct) while consuming space, linefeed and tab
(second); consequently an otherwise-valid input whose only separator is a
carriage return fails to decode while the identical input with a space
succeeds (third and fourth); and the empty-object check accepts interior
spaces but not a linefeed (last two). -/
theorem C10_whitespace_set :
    pbjson_find_first_char ('\x0d' :: 'x' :: []) = some ('\x0d' :: 'x' :: [])
    ∧ pbjson_find_first_char (' ' :: '\n' :: '\t' :: 'x' :: []) = some ('x' :: [])
    ∧ pbjson_decode ('\x7b' :: '\x0d' :: (("\"known\":true\x7d").toList)) desc_known (0 :: [])
        = none
    ∧ pbjson_decode ('\x7b' :: ' ' :: (("\"known\":true\x7d").toList)) desc_known (0 :: [])
        = some (1 :: [])
    ∧ pbjson_check_obj_empty '\x7d' ('\n' :: '\x7d' :: []) = .nonempty
    ∧ pbjson_check_obj_empty '\x7d' (' ' :: ' ' :: '\x7d' :: []) = .empty [] := by
  exact ⟨by decide, by decide, by decide, by decide, by decide, by decide⟩
